import Mathlib

/-!
Verification of the repository-synchronization scripts
(`sync_repositories.py`, `.github/scripts/sync_repositories.py`,
`sync_repos.py`) against their natural-language specification.

The Python sources are shallowly embedded: pure string manipulation is
translated to executable Lean functions over `String`/`List Char`;
the stateful pipeline (git working copy, remotes, pushes, the hosting
platform's pull-request list) is modelled by explicit state passing,
with external effects (git errors, HTTP statuses) supplied as inputs
and the operations performed (pushes, staged/committed files, the
resulting pull-request store) returned as explicit data.

Python string primitives (`split`, `strip`, `replace`, slicing,
`in`) are re-implemented by structural recursion over `List Char`
so that every definition evaluates inside the kernel.
-/

/-- Model of Python single-character `str.split(c)` over a character list:
splitting on every occurrence of `c`, keeping empty segments, always
returning at least one segment. -/
def splitChar (c : Char) : List Char → List (List Char)
| [] => [[]]
| x :: xs =>
  if x = c then
    [] :: splitChar c xs
  else
    match splitChar c xs with
    | [] => [[x]]
    | y :: ys => (x :: y) :: ys

/-- String wrapper for `splitChar`: Python `s.split(c)` for a one-character
separator. -/
def pySplitChar (c : Char) (s : String) : List String :=
  (splitChar c s.data).map (fun l => String.mk l)

/-- Model of Python `str.strip()` over a character list: drop whitespace
from both ends. -/
def stripChars (l : List Char) : List Char :=
  ((l.dropWhile Char.isWhitespace).reverse.dropWhile Char.isWhitespace).reverse

/-- Model of Python `str.strip()`. -/
def pyStrip (s : String) : String :=
  String.mk (stripChars s.data)

/-- Model of Python slicing `s[:n]`. -/
def pyTake (n : Nat) (s : String) : String :=
  String.mk (s.data.take n)

/-- First line of a string: the characters before the first newline. -/
def firstLine (s : String) : String :=
  String.mk (s.data.takeWhile (fun c => c ≠ '\n'))

/-- Model of Python `pat in s` over character lists: `pat` occurs as a
contiguous sublist. -/
def hasSubList (pat : List Char) : List Char → Bool
| [] => pat.isEmpty
| x :: xs => pat.isPrefixOf (x :: xs) || hasSubList pat xs

/-- Model of Python `pat in s` for strings. -/
def pyContains (pat s : String) : Bool :=
  hasSubList pat.data s.data

/-- Helper for `pyReplace`: if `pat` is a prefix of the list, return the
remainder after it. -/
def dropIfStarts (pat l : List Char) : Option (List Char) :=
  match pat, l with
  | [], rest => some rest
  | _ :: _, [] => none
  | p :: ps, x :: xs => if x = p then dropIfStarts ps xs else none

/-- Fuel-driven core of Python `str.replace(pat, repl)` replacing every
non-overlapping occurrence left to right. The fuel is an upper bound on
the recursion depth; callers pass the length of the list, which always
suffices. -/
def replaceFuel (pat repl : List Char) : Nat → List Char → List Char
| _, [] => []
| 0, l => l
| Nat.succ fuel, x :: xs =>
  match dropIfStarts pat (x :: xs) with
  | some rest =>
    if pat.isEmpty then x :: replaceFuel pat repl fuel xs
    else repl ++ replaceFuel pat repl fuel rest
  | none => x :: replaceFuel pat repl fuel xs

/-- Model of Python `s.replace(pat, repl)`. -/
def pyReplace (pat repl s : String) : String :=
  String.mk (replaceFuel pat.data repl.data s.data.length s.data)

/-- Join a list of strings with a separator, like Python `sep.join(parts)`. -/
def joinSep (sep : String) : List String → String
| [] => ""
| [x] => x
| x :: y :: ys => x ++ sep ++ joinSep sep (y :: ys)

/-- Repository full name extraction shared by all three scripts:
`repo_url.split(':')[1].replace('.git', '')`. Python raises `IndexError`
when the split yields fewer than two segments; that failure is modelled
as `none`. -/
def repoFullName (url : String) : Option String :=
  ((pySplitChar ':' url).get? 1).map (fun s => pyReplace ".git" "" s)

/-- Commit as seen by the scripts: full hex SHA and commit message. -/
structure Commit where
  sha : String
  message : String
deriving DecidableEq, Repr

/-- Pull request as held by the hosting platform, for the two scripts
that do not inspect a pull request beyond head, base, state, body and
draft flag. -/
structure PullRequest where
  number : Nat
  head : String
  base : String
  body : String
  draft : Bool
  isOpen : Bool
deriving DecidableEq, Repr

/-- Open pull requests of the platform store matching a head branch and
a base branch: the platform-side filter behind
`repo.get_pulls(state=..., head=..., base=...)` and the GET with
head/base/state params. -/
def openFor (store : List PullRequest) (head base : String) : List PullRequest :=
  store.filter (fun pr => pr.isOpen && pr.head == head && pr.base == base)

/-- Number handed out by the platform for a newly created pull request. -/
def freshNumber (store : List PullRequest) : Nat :=
  store.length + 1

/-- Side effects performed inside the working copy by a merge attempt. -/
inductive GitAction where
| add_all
| commit (msg : String)
deriving DecidableEq, Repr

namespace SyncRepositories

/-!
Embedding of `src/sync_repositories.py` (the root-level variant).
-/

/-- Model of `merge_branches` (src/sync_repositories.py lines 68-89).
The git merge outcome is an input: `none` when
`repo.git.merge(source_branch, '--allow-unrelated-histories')` returns
normally, `some e` when it raises `GitCommandError` with diagnostic `e`.
On an error containing `CONFLICT` the script stages all files
(`repo.git.add(A=True)`), commits the conflicted state, and returns
`False`; other errors are re-raised (`Except.error`). The actions
performed in the working copy are returned alongside the flag. -/
def merge_branches (mergeError : Option String) (source_branch new_branch : String) :
    Except String (Bool × List GitAction) :=
  match mergeError with
  | none => .ok (true, [])
  | some e =>
    if pyContains "CONFLICT" e then
      .ok (false, [GitAction.add_all,
        GitAction.commit ("Merge conflict between " ++ new_branch ++ " and " ++ source_branch)])
    else
      .error e

/-- Model of `get_commits_between_branches` (lines 91-105): takes the
commits of `iter_commits(target..new_branch)` (newest first, as git
yields them), reverses them to oldest first, and renders one markdown
entry per commit with the 7-character short SHA, the commit URL and the
whole message stripped of surrounding whitespace. -/
def get_commits_between_branches (commits : List Commit) (repo_full_name : String) : String :=
  joinSep "\n" (commits.reverse.map (fun c =>
    "- [" ++ pyTake 7 c.sha ++ "](https://github.com/" ++ repo_full_name
      ++ "/commit/" ++ c.sha ++ "): " ++ pyStrip c.message))

/-- Body built by `create_pull_request` (line 119) before creation. -/
def pr_body (target_branch new_branch commit_messages : String) : String :=
  "PR created to sync changes from " ++ target_branch ++ " to " ++ new_branch
    ++ ".\n\n### Commits included in this PR:\n" ++ commit_messages

/-- Model of `create_pull_request` (lines 107-130) acting on the platform
pull-request store: query open pull requests with the sync branch as head
and the target branch as base; if any exists, skip creation (the store is
returned unchanged, the existing body is kept); otherwise create a pull
request whose draft flag is `is_draft` and whose body is built from
`commit_messages`. -/
def create_pull_request (store : List PullRequest) (repo_full_name new_branch target_branch : String)
    (is_draft : Bool) (commit_messages : String) : List PullRequest :=
  let pulls := openFor store new_branch target_branch
  if pulls.length > 0 then
    store
  else
    store ++ [{ number := freshNumber store, head := new_branch, base := target_branch,
                body := pr_body target_branch new_branch commit_messages,
                draft := is_draft, isOpen := true }]

/-- External git behavior of one sync attempt of this script. The fields
record what the underlying repository does when the script calls it:
whether clone/fetch raise, whether the sync branch exists remotely,
which commits `iter_commits(target..sync-branch)` yields at the time the
summary is built (newest first, before the merge runs), and how the
merge call behaves. `sourceNewCommits` describes the commits reachable
from the fetched source branch but not from the target branch; the
script never consults this set, which is exactly what claim C4 is about. -/
structure World where
  cloneError : Option String
  fetchError : Option String
  syncBranchInRemote : Bool
  commitsTargetToSync : List Commit
  sourceNewCommits : List Commit
  mergeError : Option String
deriving DecidableEq, Repr

/-- Configuration drawn from the environment by `check_env_vars`. -/
structure Config where
  target_repo_url : String
  target_branch : String
  source_branch : String
  store : List PullRequest
deriving DecidableEq, Repr

/-- Terminal outcome of one run of the script. -/
inductive Outcome where
| prReady
| prDraft
| aborted (reason : String)
deriving DecidableEq, Repr

/-- Observable result of one run: the platform store afterwards, the
branches pushed to origin, whether the ephemeral working copy is absent
after the run (the `with tempfile.TemporaryDirectory()` block removes it
on every exit path, and the `source` remote lives inside it), and the
terminal outcome. -/
structure Run where
  store : List PullRequest
  pushes : List String
  workingCopyAbsent : Bool
  outcome : Outcome
deriving DecidableEq, Repr

/-- Model of `setup_repo_sync` (lines 132-183): clone and fetch, add the
`source` remote, check out or create `sync-branch`, fetch the source
branch, build the commit summary from `target..sync-branch` (before the
merge), then merge `source/<source_branch>` into the sync branch and
push it whether or not the merge conflicted. Raised `GitCommandError`s
propagate (`Except.error`); the temporary directory is removed on every
exit path. Returns the merge flag, the summary, and the pushes made. -/
def setup_repo_sync (w : World) (cfg : Config) (repo_full_name : String) :
    Except String (Bool × String × List String) :=
  match w.cloneError with
  | some e => .error e
  | none =>
  match w.fetchError with
  | some e => .error e
  | none =>
  let commit_messages := get_commits_between_branches w.commitsTargetToSync repo_full_name
  match merge_branches w.mergeError ("source/" ++ cfg.source_branch) "sync-branch" with
  | .error e => .error e
  | .ok (true, _) => .ok (true, commit_messages, ["sync-branch"])
  | .ok (false, _) => .ok (false, commit_messages, ["sync-branch"])

/-- Model of `main` (lines 186-201): extract the repo full name from the
target URL (crashing on a colon-free URL), run the sync, then reconcile
a pull request — non-draft with the built summary when the merge
succeeded, draft with an empty commit list when it conflicted. -/
def main (w : World) (cfg : Config) : Run :=
  match repoFullName cfg.target_repo_url with
  | none =>
    { store := cfg.store, pushes := [], workingCopyAbsent := true,
      outcome := .aborted "IndexError" }
  | some repo_full_name =>
    match setup_repo_sync w cfg repo_full_name with
    | .error e =>
      { store := cfg.store, pushes := [], workingCopyAbsent := true,
        outcome := .aborted e }
    | .ok (true, commit_messages, pushes) =>
      { store := create_pull_request cfg.store repo_full_name "sync-branch" cfg.target_branch
                   false commit_messages,
        pushes := pushes, workingCopyAbsent := true, outcome := .prReady }
    | .ok (false, _, pushes) =>
      { store := create_pull_request cfg.store repo_full_name "sync-branch" cfg.target_branch
                   true "",
        pushes := pushes, workingCopyAbsent := true, outcome := .prDraft }

/-- Integration result flag of a run, as the spec's `IntegrationResult`
records it: conflicted exactly when the merge raised with a `CONFLICT`
diagnostic. -/
def conflictedOf (w : World) : Bool :=
  match w.mergeError with
  | none => false
  | some e => pyContains "CONFLICT" e

end SyncRepositories

namespace SyncRepositoriesGH

/-!
Embedding of `src/.github/scripts/sync_repositories.py` (the workflow
variant). Its `merge_branches` and `setup_repo_sync` are the same code
as the root variant up to the configurable branch name and the summary
(which it no longer builds inside the sync); its `create_pull_request`
differs: an existing open pull request is reused, and in either case
the body is rewritten from the commits the platform reports for the
pull request.
-/

/-- Pull request as this variant uses it: it additionally reads the
pull request's own commit list (`pr.get_commits()`) and its `html_url`. -/
structure PullRequestGH where
  number : Nat
  head : String
  base : String
  body : String
  draft : Bool
  isOpen : Bool
  htmlUrl : String
  commits : List Commit
deriving DecidableEq, Repr

/-- Open pull requests matching a head branch and base branch. -/
def openForGH (store : List PullRequestGH) (head base : String) : List PullRequestGH :=
  store.filter (fun pr => pr.isOpen && pr.head == head && pr.base == base)

/-- Platform number for a new pull request. -/
def freshNumberGH (store : List PullRequestGH) : Nat :=
  store.length + 1

/-- Model of `pr.edit(body=...)`: the platform rewrites the body of the
pull request with that number. -/
def pr_edit (store : List PullRequestGH) (n : Nat) (newBody : String) : List PullRequestGH :=
  store.map (fun q => if q.number == n then { q with body := newBody } else q)

/-- Model of `get_commits_from_pull_request` (lines 124-135): one
markdown entry per commit of the pull request, with 7-character short
SHA, a link under the pull request's html URL, and the stripped message. -/
def get_commits_from_pull_request (pr : PullRequestGH) : String :=
  joinSep "\n" (pr.commits.map (fun c =>
    "- [" ++ pyTake 7 c.sha ++ "](" ++ pr.htmlUrl ++ "/commits/" ++ c.sha
      ++ "): " ++ pyStrip c.message))

/-- Initial body given at creation (line 108). -/
def initial_body (source_repo_url : String) : String :=
  "PR created to sync changes from " ++ source_repo_url ++ "."

/-- Body written by the final `pr.edit` (line 118). -/
def edited_body (source_repo_url commit_messages : String) : String :=
  "PR created to sync changes from " ++ source_repo_url
    ++ ".\n\n### Commits included in this PR:\n" ++ commit_messages

/-- Model of `create_pull_request` (lines 94-122): look up open pull
requests for (head, base); reuse the first match if any, otherwise
create one with draft flag `is_draft`; then rebuild the commit list from
the pull request itself and overwrite its body. `platformCommits` is the
commit list the platform associates with a pull request created now. -/
def create_pull_request (store : List PullRequestGH)
    (repo_full_name new_branch target_branch source_repo_url : String)
    (is_draft : Bool) (platformCommits : List Commit) : List PullRequestGH :=
  let pulls := openForGH store new_branch target_branch
  match pulls with
  | pr :: _ =>
    pr_edit store pr.number
      (edited_body source_repo_url (get_commits_from_pull_request pr))
  | [] =>
    let n := freshNumberGH store
    let pr : PullRequestGH :=
      { number := n, head := new_branch, base := target_branch,
        body := initial_body source_repo_url, draft := is_draft, isOpen := true,
        htmlUrl := "https://github.com/" ++ repo_full_name ++ "/pull/" ++ toString n,
        commits := platformCommits }
    pr_edit (store ++ [pr]) n
      (edited_body source_repo_url (get_commits_from_pull_request pr))

/-- Model of `merge_branches` of this variant (lines 71-92): the code is
identical to the root variant's — on a merge error containing CONFLICT,
stage everything, commit the conflicted state and return `False`;
re-raise otherwise. -/
def merge_branches (mergeError : Option String) (source_branch new_branch : String) :
    Except String (Bool × List GitAction) :=
  match mergeError with
  | none => .ok (true, [])
  | some e =>
    if pyContains "CONFLICT" e then
      .ok (false, [GitAction.add_all,
        GitAction.commit ("Merge conflict between " ++ new_branch ++ " and " ++ source_branch)])
    else
      .error e

/-- Python truthiness of the value `main` (line 191) binds to
`merge_success`: `setup_repo_sync` returns a (bool, str) 2-tuple, and
`main` assigns it WITHOUT unpacking, so `if merge_success:` tests the
truthiness of the tuple itself — and a non-empty tuple is truthy in
Python regardless of its components. -/
def tuple_truthy (_ : Bool × String) : Bool :=
  true

/-- External git behavior of one run of this variant, as for the root
variant; `platformCommits` is the commit list the platform associates
with a pull request created now. -/
structure World where
  cloneError : Option String
  fetchError : Option String
  syncBranchInRemote : Bool
  mergeError : Option String
  platformCommits : List Commit
deriving DecidableEq, Repr

/-- Configuration drawn from the environment by `check_env_vars` of this
variant, including the configurable sync branch name
(`SYNC_REPOS_BRANCH_NAME`, default `sync-repositories`). -/
structure Config where
  target_repo_url : String
  source_repo_url : String
  target_branch : String
  source_branch : String
  sync_repos_branch : String
  store : List PullRequestGH
deriving DecidableEq, Repr

/-- Terminal outcome of one run of this variant. -/
inductive Outcome where
| prReady
| prDraft
| aborted (reason : String)
deriving DecidableEq, Repr

/-- Observable result of one run of this variant. -/
structure Run where
  store : List PullRequestGH
  pushes : List String
  workingCopyAbsent : Bool
  outcome : Outcome
deriving DecidableEq, Repr

/-- Model of `setup_repo_sync` (lines 137-179): clone and fetch, add the
`source` remote, check out or create the sync branch, fetch the source
branch, merge `source/<source_branch>` into it and push either way.
Unlike the root variant it builds no summary: it returns the Python
2-tuple `(True, "")` or `(False, "")` (kept as a pair, since `main`
never unpacks it), alongside the pushes made. -/
def setup_repo_sync (w : World) (cfg : Config) :
    Except String ((Bool × String) × List String) :=
  match w.cloneError with
  | some e => .error e
  | none =>
  match w.fetchError with
  | some e => .error e
  | none =>
  match merge_branches w.mergeError ("source/" ++ cfg.source_branch) cfg.sync_repos_branch with
  | .error e => .error e
  | .ok (true, _) => .ok ((true, ""), [cfg.sync_repos_branch])
  | .ok (false, _) => .ok ((false, ""), [cfg.sync_repos_branch])

/-- Model of `main` (lines 182-198): extract the repo full name from the
target URL (crashing on a colon-free URL), run the sync, then branch on
`if merge_success:` — where `merge_success` is the (bool, str) TUPLE
returned by `setup_repo_sync`, bound without unpacking at line 191. The
tuple is always truthy, so the non-draft branch is always taken and the
`is_draft=True` branch is dead code: even after a conflicted merge the
pull request is reconciled with `is_draft=False`. -/
def main (w : World) (cfg : Config) : Run :=
  match repoFullName cfg.target_repo_url with
  | none =>
    { store := cfg.store, pushes := [], workingCopyAbsent := true,
      outcome := .aborted "IndexError" }
  | some repo_full_name =>
    match setup_repo_sync w cfg with
    | .error e =>
      { store := cfg.store, pushes := [], workingCopyAbsent := true,
        outcome := .aborted e }
    | .ok (merge_success, pushes) =>
      if tuple_truthy merge_success then
        { store := create_pull_request cfg.store repo_full_name cfg.sync_repos_branch
                     cfg.target_branch cfg.source_repo_url false w.platformCommits,
          pushes := pushes, workingCopyAbsent := true, outcome := .prReady }
      else
        { store := create_pull_request cfg.store repo_full_name cfg.sync_repos_branch
                     cfg.target_branch cfg.source_repo_url true w.platformCommits,
          pushes := pushes, workingCopyAbsent := true, outcome := .prDraft }

/-- Integration result flag of a run of this variant: conflicted exactly
when the merge raised with a CONFLICT diagnostic. -/
def conflictedOf (w : World) : Bool :=
  match w.mergeError with
  | none => false
  | some e => pyContains "CONFLICT" e

end SyncRepositoriesGH

namespace SyncRepos

/-!
Embedding of `src/sync_repos.py`. This variant keeps a persistent
working copy at `/tmp/target_repo` (reused across runs, never deleted),
talks to the hosting platform over raw HTTP (statuses are inputs), has
an explicit no-op check, and appends the merge-commit line to the
summary on the success path.
-/

/-- Single quote character, used inside body strings built by the script. -/
def sq : String := String.mk [Char.ofNat 39]

/-- Response to the pull-request list query: HTTP status plus the open
pull requests matching the query when the platform answers the query. -/
structure HttpResponse where
  status : Nat
  pulls : List PullRequest
deriving DecidableEq, Repr

/-- Model of `pull_request_exists` (lines 78-99): on a 200 response it
reports whether the returned list is non-empty; on any other status it
logs and falls through to `return False`, indistinguishable from no
pull request existing. -/
def pull_request_exists (resp : HttpResponse) : Bool :=
  if resp.status == 200 then
    decide (resp.pulls.length > 0)
  else
    false

/-- Subject line as git's `--format=%s` renders it: the message is
stripped, and the lines up to the first blank line are joined with
spaces. -/
def gitSubject (message : String) : String :=
  joinSep " " ((pySplitChar '\n' (pyStrip message)).takeWhile (fun l => pyStrip l ≠ ""))

/-- Model of `get_commit_messages` (lines 128-135): the commits of
`rev_list target..source` (newest first, not reversed), one entry
`shortsha: subject` per commit, without links. -/
def get_commit_messages (commits : List Commit) : List String :=
  commits.map (fun c => pyTake 7 c.sha ++ ": " ++ gitSubject c.message)

/-- Model of `get_merge_commit_message` (lines 137-144): the tip commit
of the auxiliary branch rendered as `shortsha: subject`. -/
def get_merge_commit_message (mergeCommit : Commit) : String :=
  pyTake 7 mergeCommit.sha ++ ": " ++ gitSubject mergeCommit.message

/-- Model of `merge_branches` (lines 57-67): a raised `GitCommandError`
(the merge input being `some e`) is caught and reported as failure; a
returning merge reports failure when unmerged blobs remain. In no case
does this variant stage files or create a commit: the action trace is
always empty. -/
def merge_branches (mergeError : Option String) (unmergedBlobs : Bool) :
    Bool × List GitAction :=
  match mergeError with
  | some _ => (false, [])
  | none => if unmergedBlobs then (false, []) else (true, [])

/-- Body built by `create_pull_request` (line 105). -/
def pr_body (aux_branch target_branch : String) (commit_list : List String) : String :=
  "Opening PR to merge changes from auxiliary branch " ++ sq ++ aux_branch ++ sq
    ++ " into " ++ sq ++ target_branch ++ sq
    ++ ".\n\nList of commits being merged:\n" ++ joinSep "\n" commit_list

/-- Result of one `create_pull_request` call: the platform store
afterwards, the returned number (when creation succeeded), and whether a
creation POST was issued at all. -/
structure ReconcileOut where
  store : List PullRequest
  prNumber : Option Nat
  attemptedCreate : Bool
deriving DecidableEq, Repr

/-- Model of `create_pull_request` (lines 101-126): both it and
`pull_request_exists` split the repository URL on `:` (an URL without a
colon raises IndexError, modelled as `none`). The existence check is
consulted first — its HTTP response carries `lookupStatus` and, when the
platform answers, the open pull requests matching (head, base). If it
reports an existing pull request, creation is skipped and nothing is
updated; otherwise a creation POST is issued, which appends a pull
request when the platform answers 201 and otherwise changes nothing. -/
def create_pull_request (repo_url aux_branch target_branch : String)
    (commit_list : List String) (draft : Bool)
    (store : List PullRequest) (lookupStatus createStatus : Nat) :
    Option ReconcileOut :=
  match repoFullName repo_url with
  | none => none
  | some _ =>
    let resp : HttpResponse := { status := lookupStatus, pulls := openFor store aux_branch target_branch }
    if pull_request_exists resp then
      some { store := store, prNumber := none, attemptedCreate := false }
    else
      if createStatus == 201 then
        let n := freshNumber store
        some { store := store ++ [{ number := n, head := aux_branch, base := target_branch,
                                    body := pr_body aux_branch target_branch commit_list,
                                    draft := draft, isOpen := true }],
               prNumber := some n, attemptedCreate := true }
      else
        some { store := store, prNumber := none, attemptedCreate := true }

/-- External behavior of the collaborators during one run of `main`:
whether `/tmp/target_repo` already exists (and which remotes the reused
working copy carries), whether merging the target branch into the
auxiliary branch raises, the commits of
`rev_list origin/target..source_repo/source` (newest first), how the
source merge behaves, whether pushes succeed, the HTTP statuses of the
pull-request lookup and creation, and the tip commit used for the
merge-commit line. -/
structure World where
  repoPathExists : Bool
  initialRemotes : List String
  targetMergeError : Option String
  sourceNewCommits : List Commit
  mergeError : Option String
  unmergedBlobs : Bool
  pushOk : Bool
  lookupStatus : Nat
  createStatus : Nat
  mergeCommit : Commit
deriving DecidableEq, Repr

/-- Configuration read from the environment by `main`. -/
structure Config where
  target_repo_url : String
  source_repo_url : String
  target_branch : String
  source_branch : String
  store : List PullRequest
deriving DecidableEq, Repr

/-- Terminal outcome of one run of `main` on the paths that complete
without an uncaught exception. -/
inductive Outcome where
| targetConflictDraft
| noChanges
| conflictDraft
| prReady
| successPushFailed
deriving DecidableEq, Repr

/-- Observable result of one run: platform store, pushes to origin, the
remotes configured in the working copy after the run, whether the
working copy at `/tmp/target_repo` still exists afterwards (this script
never deletes it), the reconcile invocation made (draft flag and commit
list), the returned pull-request number, and the outcome. -/
structure Run where
  store : List PullRequest
  pushes : List String
  remotes : List String
  workdirPersists : Bool
  reconcileCall : Option (Bool × List String)
  prNumber : Option Nat
  outcome : Outcome
deriving DecidableEq, Repr

/-- Model of `main` (lines 212-279). The working copy is created at
`/tmp/target_repo` or reused; the `source_repo` remote is added if
absent. If merging the target branch into the auxiliary branch raises,
a draft pull request is reconciled (after a push, if the push succeeds)
and the remote is removed. Otherwise an empty `commits_to_merge` ends
the run with no push and no pull request, removing the remote. Otherwise
the source branch is merged: on failure a draft pull request is
reconciled (after a successful push) and the remote removed; on success,
if the push succeeds, the merge-commit line is appended to the commit
list, a non-draft pull request is reconciled and the remote removed —
but if the push fails the function falls off the end, leaving the
`source_repo` remote in place. `none` models the IndexError raised by
the URL split inside the pull-request helpers. -/
def main (w : World) (cfg : Config) : Option Run :=
  let aux_branch_name := "aux-sync-" ++ cfg.source_branch
  let remotes0 := if w.repoPathExists then w.initialRemotes else ["origin"]
  let remotes1 := if remotes0.contains "source_repo" then remotes0 else remotes0 ++ ["source_repo"]
  match w.targetMergeError with
  | some _ =>
    let commit_messages := get_commit_messages w.sourceNewCommits
    if w.pushOk then
      match create_pull_request cfg.target_repo_url aux_branch_name cfg.target_branch
          commit_messages true cfg.store w.lookupStatus w.createStatus with
      | none => none
      | some out =>
        some { store := out.store, pushes := [aux_branch_name],
               remotes := remotes1.erase "source_repo", workdirPersists := true,
               reconcileCall := some (true, commit_messages), prNumber := out.prNumber,
               outcome := .targetConflictDraft }
    else
      some { store := cfg.store, pushes := [], remotes := remotes1.erase "source_repo",
             workdirPersists := true, reconcileCall := none, prNumber := none,
             outcome := .targetConflictDraft }
  | none =>
    let commits_to_merge := w.sourceNewCommits.map (fun c => c.sha)
    if commits_to_merge.isEmpty then
      some { store := cfg.store, pushes := [], remotes := remotes1.erase "source_repo",
             workdirPersists := true, reconcileCall := none, prNumber := none,
             outcome := .noChanges }
    else
      let merge_success := (merge_branches w.mergeError w.unmergedBlobs).1
      let commit_messages := get_commit_messages w.sourceNewCommits
      if merge_success then
        if w.pushOk then
          let commit_messages2 := commit_messages ++ [get_merge_commit_message w.mergeCommit]
          match create_pull_request cfg.target_repo_url aux_branch_name cfg.target_branch
              commit_messages2 false cfg.store w.lookupStatus w.createStatus with
          | none => none
          | some out =>
            some { store := out.store, pushes := [aux_branch_name],
                   remotes := remotes1.erase "source_repo", workdirPersists := true,
                   reconcileCall := some (false, commit_messages2), prNumber := out.prNumber,
                   outcome := .prReady }
        else
          some { store := cfg.store, pushes := [], remotes := remotes1,
                 workdirPersists := true, reconcileCall := none, prNumber := none,
                 outcome := .successPushFailed }
      else
        if w.pushOk then
          match create_pull_request cfg.target_repo_url aux_branch_name cfg.target_branch
              commit_messages true cfg.store w.lookupStatus w.createStatus with
          | none => none
          | some out =>
            some { store := out.store, pushes := [aux_branch_name],
                   remotes := remotes1.erase "source_repo", workdirPersists := true,
                   reconcileCall := some (true, commit_messages), prNumber := out.prNumber,
                   outcome := .conflictDraft }
        else
          some { store := cfg.store, pushes := [], remotes := remotes1.erase "source_repo",
                 workdirPersists := true, reconcileCall := none, prNumber := none,
                 outcome := .conflictDraft }

end SyncRepos

/-!
Concrete repository states used by witnesses and counterexamples.
-/

/-- Default target repository URL of both scripts. -/
def urlTarget : String := "git@github.com:lsfreitas/target-repo.git"

/-- Default source repository URL of both scripts. -/
def urlSource : String := "git@github.com:lsfreitas/source-repo.git"

/-- A first source commit with a single-line message. -/
def commitOne : Commit :=
  { sha := "0a1b2c3d4e5f60718293a4b5c6d7e8f901234567", message := "Add feature one" }

/-- A second source commit with a single-line message. -/
def commitTwo : Commit :=
  { sha := "f7e6d5c4b3a2910887766554433221100fedcba9", message := "Add feature two" }

/-- A third source commit with a single-line message. -/
def commitThree : Commit :=
  { sha := "abcdefabcdefabcdefabcdefabcdefabcdefabcd", message := "Add feature three" }

/-- A commit whose message has a body below the subject line. -/
def commitMulti : Commit :=
  { sha := "0123456789abcdef0123456789abcdef01234567",
    message := "Add feature\n\nWith a longer description." }

/-- The merge commit produced by a clean whole-branch merge. -/
def commitMerge : Commit :=
  { sha := "99887766554433221100ffeeddccbbaa01234567",
    message := "Merge remote-tracking branch source_repo/main" }

/-- Configuration of `sync_repositories.py` with the default environment
and an empty platform store. -/
def cfgA : SyncRepositories.Config :=
  { target_repo_url := urlTarget, target_branch := "main", source_branch := "main",
    store := [] }

/-- Run of `sync_repositories.py` in which the whole-branch merge
conflicts. -/
def wConflictA : SyncRepositories.World :=
  { cloneError := none, fetchError := none, syncBranchInRemote := false,
    commitsTargetToSync := [], sourceNewCommits := [commitOne],
    mergeError := some "Cmd git merge failed: CONFLICT (content): Merge conflict in src/app.py" }

/-- Run of `sync_repositories.py` in which the source branch has no
commit that the target branch lacks: the sync branch is fresh from the
target, so the merge trivially succeeds with nothing to do. -/
def wNoopA : SyncRepositories.World :=
  { cloneError := none, fetchError := none, syncBranchInRemote := false,
    commitsTargetToSync := [], sourceNewCommits := [], mergeError := none }

/-- Run of `sync_repositories.py` on a fresh sync branch with two new
source commits and a clean merge: the sync branch is created from the
target branch, so `iter_commits(target..sync-branch)` is empty at the
time the summary is built. -/
def wFreshA (c1 c2 : Commit) : SyncRepositories.World :=
  { cloneError := none, fetchError := none, syncBranchInRemote := false,
    commitsTargetToSync := [], sourceNewCommits := [c1, c2], mergeError := none }

/-- The draft pull request created by `sync_repositories.py` after a
conflicted merge on an empty store. -/
def prDraftA : PullRequest :=
  { number := 1, head := "sync-branch", base := "main",
    body := SyncRepositories.pr_body "main" "sync-branch" "", draft := true, isOpen := true }

/-- Configuration of the workflow variant with the default branch name
`sync-repositories` and an empty platform store. -/
def cfgGH : SyncRepositoriesGH.Config :=
  { target_repo_url := urlTarget, source_repo_url := urlSource,
    target_branch := "main", source_branch := "main",
    sync_repos_branch := "sync-repositories", store := [] }

/-- Run of the workflow variant in which the whole-branch merge
conflicts. -/
def wConflictGH : SyncRepositoriesGH.World :=
  { cloneError := none, fetchError := none, syncBranchInRemote := false,
    mergeError := some "Cmd git merge failed: CONFLICT (content): Merge conflict in src/app.py",
    platformCommits := [commitOne] }

/-- Configuration of `sync_repos.py` with the default environment and an
empty platform store. -/
def cfgC : SyncRepos.Config :=
  { target_repo_url := urlTarget, source_repo_url := urlSource,
    target_branch := "main", source_branch := "main", store := [] }

/-- Run of `sync_repos.py` on a fresh working copy with two new source
commits (newest first, as `rev_list` yields them), a clean merge, a
successful push and a healthy platform. -/
def wFreshC (c1 c2 cm : Commit) : SyncRepos.World :=
  { repoPathExists := false, initialRemotes := [], targetMergeError := none,
    sourceNewCommits := [c2, c1], mergeError := none, unmergedBlobs := false,
    pushOk := true, lookupStatus := 200, createStatus := 201, mergeCommit := cm }

/-- Run of `sync_repos.py` identical to `wFreshC` except that the final
push fails. -/
def wPushFailC (c1 c2 cm : Commit) : SyncRepos.World :=
  { repoPathExists := false, initialRemotes := [], targetMergeError := none,
    sourceNewCommits := [c2, c1], mergeError := none, unmergedBlobs := false,
    pushOk := false, lookupStatus := 200, createStatus := 201, mergeCommit := cm }

/-- Run of `sync_repos.py` in which the auxiliary branch merges cleanly
with the target branch and the source branch has no new commits. -/
def wNoopC : SyncRepos.World :=
  { repoPathExists := false, initialRemotes := [], targetMergeError := none,
    sourceNewCommits := [], mergeError := none, unmergedBlobs := false,
    pushOk := true, lookupStatus := 200, createStatus := 201, mergeCommit := commitMerge }

/-- An open pull request already present for the auxiliary branch of
`sync_repos.py`. -/
def prExistingC : PullRequest :=
  { number := 1, head := "aux-sync-main", base := "main", body := "old body",
    draft := false, isOpen := true }

/-- Summary entry format asserted by the claim and by section 4.3 of the
spec: bullet, 7-character short SHA linking to the commit, and the first
line of the commit message. -/
def claimLine (repo_full_name : String) (c : Commit) : String :=
  "- [" ++ pyTake 7 c.sha ++ "](https://github.com/" ++ repo_full_name
    ++ "/commit/" ++ c.sha ++ "): " ++ firstLine c.message

/-- A message is a single line. -/
def singleLine (s : String) : Bool :=
  s.data.all (fun c => c ≠ '\n')

/-- Number of markdown commit entries in a pull-request body: lines
beginning with the bullet-link prefix. -/
def dashLineCount (body : String) : Nat :=
  ((pySplitChar '\n' body).filter (fun l => "- [".data.isPrefixOf l.data)).length

/-- Number of lines of a string. -/
def lineCount (s : String) : Nat :=
  (pySplitChar '\n' s).length

/-- The pull request created by the workflow variant on an empty store,
with its body already rewritten by the final edit. -/
def ghCreatedPr (rfn nb tb src : String) (d : Bool) (cs : List Commit) :
    SyncRepositoriesGH.PullRequestGH :=
  { number := 1, head := nb, base := tb,
    body := SyncRepositoriesGH.edited_body src (SyncRepositoriesGH.get_commits_from_pull_request
      { number := 1, head := nb, base := tb,
        body := SyncRepositoriesGH.initial_body src, draft := d, isOpen := true,
        htmlUrl := "https://github.com/" ++ rfn ++ "/pull/" ++ toString 1, commits := cs }),
    draft := d, isOpen := true,
    htmlUrl := "https://github.com/" ++ rfn ++ "/pull/" ++ toString 1, commits := cs }

/-- Repeated reconciliation in `sync_repositories.py`: one
`create_pull_request` call per sync attempt over the same head and base,
each attempt bringing its own draft flag and summary. -/
def reconcileSeqA (rfn nb tb : String) :
    List (Bool × String) → List PullRequest → List PullRequest
| [], store => store
| (d, msgs) :: rest, store =>
  reconcileSeqA rfn nb tb rest (SyncRepositories.create_pull_request store rfn nb tb d msgs)

/-!
Theorems. Helper lemmas come first, then one theorem per claim with its
witness or counterexample.
-/

theorem splitChar_of_not_mem (c : Char) (l : List Char) (h : c ∉ l) :
    splitChar c l = [l] := by
  induction l with
  | nil => rfl
  | cons x xs ih =>
    have hx : ¬ x = c := fun hxc => h (by simp [hxc])
    have hxs : c ∉ xs := fun hm => h (List.mem_cons_of_mem _ hm)
    rw [splitChar, if_neg hx, ih hxs]

theorem self_ne_append_singleton (store : List PullRequest) (pr : PullRequest) :
    store ≠ store ++ [pr] := by
  intro h
  have hl := congrArg List.length h
  simp at hl

theorem createA_append_draft (store : List PullRequest) (rfn nb tb : String)
    (d : Bool) (msgs : String) (pr : PullRequest)
    (h : SyncRepositories.create_pull_request store rfn nb tb d msgs = store ++ [pr]) :
    pr.draft = d := by
  unfold SyncRepositories.create_pull_request at h
  by_cases hc : (openFor store nb tb).length > 0
  · simp only [hc, if_true] at h
    exact absurd h (self_ne_append_singleton store pr)
  · simp only [hc, if_false] at h
    have h2 := List.append_cancel_left h
    injection h2 with h3 _
    subst h3
    rfl

/-- C9: the repository full name is obtained by splitting the target
repository URL on the colon and taking the segment after the first colon
with ".git" removed. On the default ssh-style URL this yields the
owner/name form; a URL containing no colon makes the index access fail
(Python IndexError, modelled as `none`); an https-style URL yields a
malformed name beginning with two slashes instead of owner/name. -/
theorem C9_repo_full_name_parsing :
    repoFullName "git@github.com:lsfreitas/target-repo.git"
        = some "lsfreitas/target-repo"
    ∧ (∀ url : String, (':' ∈ url.data → False) → repoFullName url = none)
    ∧ repoFullName "https://github.com/lsfreitas/target-repo.git"
        = some "//github.com/lsfreitas/target-repo"
    ∧ some "//github.com/lsfreitas/target-repo" ≠ some "lsfreitas/target-repo" := by
  refine ⟨by decide, ?_, by decide, by decide⟩
  intro url h
  unfold repoFullName pySplitChar
  rw [splitChar_of_not_mem ':' url.data h]
  rfl

/-- Witness for C9: the plain owner/name form contains no colon, so the
extraction fails (an unhandled IndexError in the scripts). -/
theorem C9_repo_full_name_parsing_witness :
    repoFullName "lsfreitas/target-repo" = none :=
  C9_repo_full_name_parsing.2.1 "lsfreitas/target-repo" (by decide)

theorem openForGH_pr_edit (s : List SyncRepositoriesGH.PullRequestGH) (n : Nat)
    (b hh bb : String) :
    SyncRepositoriesGH.openForGH (SyncRepositoriesGH.pr_edit s n b) hh bb
      = (SyncRepositoriesGH.openForGH s hh bb).map
          (fun q => if q.number == n then { q with body := b } else q) := by
  unfold SyncRepositoriesGH.openForGH SyncRepositoriesGH.pr_edit
  rw [List.filter_map]
  congr 1
  apply List.filter_congr
  intro q hq
  by_cases hn : q.number = n <;> simp [hn, beq_iff_eq]

theorem openForGH_append (s t : List SyncRepositoriesGH.PullRequestGH) (hh bb : String) :
    SyncRepositoriesGH.openForGH (s ++ t) hh bb
      = SyncRepositoriesGH.openForGH s hh bb ++ SyncRepositoriesGH.openForGH t hh bb := by
  unfold SyncRepositoriesGH.openForGH
  exact List.filter_append _ _

theorem createGH_openFor_draft (store : List SyncRepositoriesGH.PullRequestGH)
    (rfn nb tb src : String) (d : Bool) (cs : List Commit)
    (ho : SyncRepositoriesGH.openForGH store nb tb = []) :
    (SyncRepositoriesGH.openForGH
        (SyncRepositoriesGH.create_pull_request store rfn nb tb src d cs) nb tb).map
      (fun p => p.draft) = [d] := by
  unfold SyncRepositoriesGH.create_pull_request
  rw [ho]
  rw [openForGH_pr_edit, openForGH_append, ho]
  simp [SyncRepositoriesGH.openForGH, SyncRepositoriesGH.freshNumberGH]

/-- Counterexample to C1: in the `.github/scripts` variant, `main`
(line 191) binds the (bool, str) tuple returned by `setup_repo_sync` to
`merge_success` without unpacking, and a non-empty tuple is always
truthy — so a run whose integration is conflicted (conflicted = true)
still takes the non-draft branch and creates a pull request with
draft = false, refuting draft = conflicted for this cited variant. -/
theorem C1_counterexample_truthy_tuple_nondraft :
    SyncRepositoriesGH.conflictedOf wConflictGH = true
    ∧ ((SyncRepositoriesGH.main wConflictGH cfgGH).store.map (fun p => p.draft)) = [false]
    ∧ (SyncRepositoriesGH.main wConflictGH cfgGH).outcome
        = SyncRepositoriesGH.Outcome.prReady :=
  ⟨by decide, by decide, by decide⟩

/-- C1 as amended: in `sync_repositories.py` every pull request created
by reconciliation has draft flag equal to the conflicted flag of the
integration result; in the `.github/scripts` variant the unpacking bug
at line 191 makes the always-truthy tuple select the non-draft branch on
every run, so any pull request its reconciliation creates has
draft = false regardless of the conflicted flag, and the draft outcome
is dead code (no run ever ends in it). -/
theorem C1_amended_draft_flag :
    (∀ (w : SyncRepositories.World) (cfg : SyncRepositories.Config) (pr : PullRequest),
      (SyncRepositories.main w cfg).store = cfg.store ++ [pr] →
      pr.draft = SyncRepositories.conflictedOf w)
    ∧ (∀ (w : SyncRepositoriesGH.World) (cfg : SyncRepositoriesGH.Config),
      SyncRepositoriesGH.openForGH cfg.store cfg.sync_repos_branch cfg.target_branch = [] →
      (SyncRepositoriesGH.main w cfg).outcome = SyncRepositoriesGH.Outcome.prReady →
      (SyncRepositoriesGH.openForGH (SyncRepositoriesGH.main w cfg).store
          cfg.sync_repos_branch cfg.target_branch).map (fun p => p.draft) = [false])
    ∧ (∀ (w : SyncRepositoriesGH.World) (cfg : SyncRepositoriesGH.Config),
      (SyncRepositoriesGH.main w cfg).outcome ≠ SyncRepositoriesGH.Outcome.prDraft) := by
  refine ⟨?_, ?_, ?_⟩
  · intro w cfg pr h
    obtain ⟨ce, fe, sbr, cts, snc, me⟩ := w
    cases hu : repoFullName cfg.target_repo_url with
    | none =>
      simp only [SyncRepositories.main, hu] at h
      exact absurd h (self_ne_append_singleton _ _)
    | some rfn =>
      cases ce with
      | some e =>
        simp only [SyncRepositories.main, SyncRepositories.setup_repo_sync, hu] at h
        exact absurd h (self_ne_append_singleton _ _)
      | none =>
        cases fe with
        | some e =>
          simp only [SyncRepositories.main, SyncRepositories.setup_repo_sync, hu] at h
          exact absurd h (self_ne_append_singleton _ _)
        | none =>
          cases me with
          | none =>
            simp only [SyncRepositories.main, SyncRepositories.setup_repo_sync,
              SyncRepositories.merge_branches, hu] at h
            simp only [SyncRepositories.conflictedOf]
            exact createA_append_draft _ _ _ _ _ _ pr h
          | some e =>
            by_cases hc : pyContains "CONFLICT" e
            · simp only [SyncRepositories.main, SyncRepositories.setup_repo_sync,
                SyncRepositories.merge_branches, hu, hc, if_true] at h
              simp only [SyncRepositories.conflictedOf, hc]
              exact createA_append_draft _ _ _ _ _ _ pr h
            · simp only [SyncRepositories.main, SyncRepositories.setup_repo_sync,
                SyncRepositories.merge_branches, hu, hc, if_false] at h
              exact absurd h (self_ne_append_singleton _ _)
  · intro w cfg ho hout
    cases hu : repoFullName cfg.target_repo_url with
    | none => simp [SyncRepositoriesGH.main, hu] at hout
    | some rfn =>
      cases hs : SyncRepositoriesGH.setup_repo_sync w cfg with
      | error e => simp [SyncRepositoriesGH.main, hu, hs] at hout
      | ok p =>
        obtain ⟨ms, pushes⟩ := p
        simp only [SyncRepositoriesGH.main, hu, hs, SyncRepositoriesGH.tuple_truthy,
          if_true]
        exact createGH_openFor_draft cfg.store rfn cfg.sync_repos_branch
          cfg.target_branch cfg.source_repo_url false w.platformCommits ho
  · intro w cfg h
    cases hu : repoFullName cfg.target_repo_url with
    | none => simp [SyncRepositoriesGH.main, hu] at h
    | some rfn =>
      cases hs : SyncRepositoriesGH.setup_repo_sync w cfg with
      | error e => simp [SyncRepositoriesGH.main, hu, hs] at h
      | ok p =>
        obtain ⟨ms, pushes⟩ := p
        simp [SyncRepositoriesGH.main, hu, hs, SyncRepositoriesGH.tuple_truthy] at h

/-- Witness for C1 as amended: a conflicted merge in the root variant
creates exactly the draft pull request, and a conflicted run of the
workflow variant still leaves a single non-draft open pull request. -/
theorem C1_amended_draft_flag_witness :
    ((SyncRepositories.main wConflictA cfgA).store = cfgA.store ++ [prDraftA]
      ∧ prDraftA.draft = SyncRepositories.conflictedOf wConflictA)
    ∧ (SyncRepositoriesGH.openForGH (SyncRepositoriesGH.main wConflictGH cfgGH).store
        "sync-repositories" "main").map (fun p => p.draft) = [false] :=
  ⟨⟨by decide, C1_amended_draft_flag.1 wConflictA cfgA prDraftA (by decide)⟩,
    C1_amended_draft_flag.2.1 wConflictGH cfgGH (by decide) (by decide)⟩

/-- Counterexample to C2: in `sync_repositories.py`, calling the
reconciler twice with the same head/base and differing commit summaries
leaves exactly one open pull request whose body is the one built by the
FIRST invocation, not the second — the existing request is found and
creation is skipped without any body update, while the two bodies
differ. -/
theorem C2_counterexample_first_body_kept :
    SyncRepositories.create_pull_request
        (SyncRepositories.create_pull_request [] "lsfreitas/target-repo" "sync-branch" "main"
          false "- [0a1b2c3](u): Add feature one")
        "lsfreitas/target-repo" "sync-branch" "main" false "- [f7e6d5c](u): Add feature two"
      = [{ number := 1, head := "sync-branch", base := "main",
           body := SyncRepositories.pr_body "main" "sync-branch" "- [0a1b2c3](u): Add feature one",
           draft := false, isOpen := true }]
    ∧ SyncRepositories.pr_body "main" "sync-branch" "- [0a1b2c3](u): Add feature one"
        ≠ SyncRepositories.pr_body "main" "sync-branch" "- [f7e6d5c](u): Add feature two" :=
  ⟨by decide, by decide⟩

/-- C2 as amended: two successive reconciler invocations with the same
head and base produce exactly one open pull request; in
`sync_repositories.py` the second invocation skips the existing request
and its body stays the FIRST invocation's summary, while in the workflow
variant the existing request is reused and its body is overwritten with
the summary the second invocation rebuilds from the pull request's own
commit list. -/
theorem C2_amended_two_invocations :
    (∀ (rfn nb tb : String) (d1 d2 : Bool) (b1 b2 : String),
      SyncRepositories.create_pull_request
          (SyncRepositories.create_pull_request [] rfn nb tb d1 b1) rfn nb tb d2 b2
        = SyncRepositories.create_pull_request [] rfn nb tb d1 b1
      ∧ (SyncRepositories.create_pull_request [] rfn nb tb d1 b1).length = 1
      ∧ (SyncRepositories.create_pull_request [] rfn nb tb d1 b1).map (fun p => p.body)
          = [SyncRepositories.pr_body tb nb b1])
    ∧ (∀ (rfn nb tb src : String) (d1 d2 : Bool) (cs1 cs2 : List Commit),
      SyncRepositoriesGH.create_pull_request [] rfn nb tb src d1 cs1
          = [ghCreatedPr rfn nb tb src d1 cs1]
      ∧ SyncRepositoriesGH.create_pull_request [ghCreatedPr rfn nb tb src d1 cs1]
            rfn nb tb src d2 cs2
          = [ghCreatedPr rfn nb tb src d1 cs1]
      ∧ (ghCreatedPr rfn nb tb src d1 cs1).body
          = SyncRepositoriesGH.edited_body src
              (SyncRepositoriesGH.get_commits_from_pull_request (ghCreatedPr rfn nb tb src d1 cs1))) := by
  constructor
  · intro rfn nb tb d1 d2 b1 b2
    refine ⟨?_, by simp [SyncRepositories.create_pull_request, openFor], by
      simp [SyncRepositories.create_pull_request, openFor]⟩
    simp [SyncRepositories.create_pull_request, openFor, freshNumber]
  · intro rfn nb tb src d1 d2 cs1 cs2
    refine ⟨?_, ?_, rfl⟩
    · simp [SyncRepositoriesGH.create_pull_request, SyncRepositoriesGH.openForGH,
        SyncRepositoriesGH.pr_edit, SyncRepositoriesGH.freshNumberGH, ghCreatedPr]
    · simp [SyncRepositoriesGH.create_pull_request, SyncRepositoriesGH.openForGH,
        SyncRepositoriesGH.pr_edit, SyncRepositoriesGH.freshNumberGH, ghCreatedPr,
        SyncRepositoriesGH.get_commits_from_pull_request]

/-- Counterexample to C3: in `sync_repos.py`, a whole-branch merge that
raises with a conflict diagnostic merely returns merge-failed: no file
is staged and no commit recording the conflicted state is created (the
action trace is empty), contrary to the claim that every conflicted
whole-branch merge stages all files and commits before returning. -/
theorem C3_counterexample_no_conflict_commit :
    SyncRepos.merge_branches
        (some "Cmd git merge failed: CONFLICT (content): Merge conflict in src/app.py") false
      = (false, ([] : List GitAction)) :=
  by decide

/-- C3 as amended: in the `sync_repositories.py` variants, a merge error
containing CONFLICT stages all files and creates the single
conflict-recording commit before returning merge-failed (so the branch
is push-able and the conflict becomes draft-mode state), and any other
merge error is re-raised; in `sync_repos.py` a failed merge returns
merge-failed with no staging and no commit. -/
theorem C3_amended_conflict_commit :
    (∀ e src nb : String, pyContains "CONFLICT" e = true →
      SyncRepositories.merge_branches (some e) src nb
        = .ok (false, [GitAction.add_all,
            GitAction.commit ("Merge conflict between " ++ nb ++ " and " ++ src)]))
    ∧ (∀ e src nb : String, pyContains "CONFLICT" e = false →
      SyncRepositories.merge_branches (some e) src nb = .error e)
    ∧ (∀ (e : String) (unmerged : Bool),
      SyncRepos.merge_branches (some e) unmerged = (false, [])) := by
  refine ⟨?_, ?_, ?_⟩
  · intro e src nb h
    simp [SyncRepositories.merge_branches, h]
  · intro e src nb h
    simp [SyncRepositories.merge_branches, h]
  · intro e unmerged
    simp [SyncRepos.merge_branches]

/-- Witness for C3 as amended: a concrete conflicted merge in
`sync_repositories.py` stages everything and commits the conflicted
state. -/
theorem C3_amended_conflict_commit_witness :
    SyncRepositories.merge_branches
        (some "Cmd git merge failed: CONFLICT (content): Merge conflict in src/app.py")
        "source/main" "sync-branch"
      = .ok (false, [GitAction.add_all,
          GitAction.commit ("Merge conflict between " ++ "sync-branch" ++ " and " ++ "source/main")]) :=
  C3_amended_conflict_commit.1
    "Cmd git merge failed: CONFLICT (content): Merge conflict in src/app.py"
    "source/main" "sync-branch" (by decide)

/-- Counterexample to C4: in `sync_repositories.py`, a sync attempt in
which the source branch has no commit missing from the target branch
(the merge is trivially clean) still pushes the sync branch, still
reaches pull-request reconciliation and still creates a pull request:
the script has no no-op detection and no NO_CHANGES outcome. -/
theorem C4_counterexample_push_despite_no_commits :
    wNoopA.sourceNewCommits = []
    ∧ (SyncRepositories.main wNoopA cfgA).pushes = ["sync-branch"]
    ∧ (SyncRepositories.main wNoopA cfgA).outcome = SyncRepositories.Outcome.prReady
    ∧ ((SyncRepositories.main wNoopA cfgA).store).length = 1 :=
  ⟨rfl, by decide, by decide, by decide⟩

/-- C4 as amended: only `sync_repos.py` detects the no-op — on any run
where the auxiliary branch merges cleanly with the target branch and
the source-to-target commit set is empty, it terminates in the
no-changes outcome with no push, no pull-request call and an unchanged
store; `sync_repositories.py` performs no such detection (see the
counterexample). -/
theorem C4_amended_no_op_detection :
    ∀ (w : SyncRepos.World) (cfg : SyncRepos.Config) (run : SyncRepos.Run),
      w.targetMergeError = none →
      w.sourceNewCommits = [] →
      SyncRepos.main w cfg = some run →
      run.outcome = SyncRepos.Outcome.noChanges ∧ run.pushes = [] ∧ run.store = cfg.store
        ∧ run.reconcileCall = none := by
  intro w cfg run h1 h2 h3
  simp only [SyncRepos.main, h1, h2, List.map_nil, List.isEmpty_nil, if_true,
    Option.some.injEq] at h3
  subst h3
  exact ⟨rfl, rfl, rfl, rfl⟩

/-- Witness for C4 as amended: a concrete empty sync attempt of
`sync_repos.py` ends in the no-changes outcome without a push or a
pull-request call. -/
theorem C4_amended_no_op_detection_witness :
    ∃ run : SyncRepos.Run, SyncRepos.main wNoopC cfgC = some run
      ∧ run.outcome = SyncRepos.Outcome.noChanges ∧ run.pushes = [] ∧ run.store = cfgC.store
        ∧ run.reconcileCall = none := by
  refine ⟨{ store := [], pushes := [], remotes := ["origin"], workdirPersists := true,
            reconcileCall := none, prNumber := none, outcome := .noChanges }, by decide, ?_⟩
  exact C4_amended_no_op_detection wNoopC cfgC _ rfl rfl (by decide)

theorem takeWhile_all {p : Char → Bool} (l : List Char) (h : l.all p = true) :
    l.takeWhile p = l := by
  induction l with
  | nil => rfl
  | cons x xs ih =>
    simp only [List.all_cons, Bool.and_eq_true] at h
    simp [List.takeWhile_cons, h.1, ih h.2]

/-- Counterexample to C5: the summary builder of `sync_repositories.py`
embeds the ENTIRE stripped commit message, not its first line, so a
commit whose message has a body yields an entry that differs from the
claimed exact form and spans three lines instead of one line per
commit. -/
theorem C5_counterexample_multiline_message :
    SyncRepositories.get_commits_between_branches [commitMulti] "lsfreitas/target-repo"
        ≠ claimLine "lsfreitas/target-repo" commitMulti
    ∧ lineCount
        (SyncRepositories.get_commits_between_branches [commitMulti] "lsfreitas/target-repo")
        = 3 :=
  ⟨by decide, by decide⟩

/-- C5 as amended: for commits given oldest first whose messages are
single-line and carry no surrounding whitespace, the summary of
`sync_repositories.py` lists them in that order, one entry per commit,
in the exact claimed form with 7-character short SHAs; in general the
entry carries the entire stripped message rather than its first line
(see the counterexample), and `sync_repos.py` instead renders
`shortsha: subject` lines, newest first, without links. -/
theorem C5_amended_summary_format :
    (∀ (cs : List Commit) (repo_full_name : String),
      (∀ c ∈ cs, singleLine c.message = true ∧ pyStrip c.message = c.message) →
      SyncRepositories.get_commits_between_branches cs.reverse repo_full_name
        = joinSep "\n" (cs.map (claimLine repo_full_name)))
    ∧ (∀ cs : List Commit,
      SyncRepos.get_commit_messages cs
        = cs.map (fun c => pyTake 7 c.sha ++ ": " ++ SyncRepos.gitSubject c.message)) := by
  constructor
  · intro cs rfn h
    unfold SyncRepositories.get_commits_between_branches
    rw [List.reverse_reverse]
    congr 1
    apply List.map_congr_left
    intro c hc
    obtain ⟨h1, h2⟩ := h c hc
    have hf : firstLine c.message = c.message := by
      unfold singleLine at h1
      unfold firstLine
      rw [takeWhile_all _ h1]
    unfold claimLine
    rw [hf, h2]
  · intro cs
    rfl

/-- Witness for C5 as amended: three single-line commits, oldest first,
render as exactly the three claimed entries in order. -/
theorem C5_amended_summary_format_witness :
    SyncRepositories.get_commits_between_branches
        ([commitOne, commitTwo, commitThree]).reverse "lsfreitas/target-repo"
      = joinSep "\n"
          (([commitOne, commitTwo, commitThree]).map (claimLine "lsfreitas/target-repo")) :=
  C5_amended_summary_format.1 [commitOne, commitTwo, commitThree] "lsfreitas/target-repo"
    (by decide)

theorem notmem_erase_of_count_le (l : List String) (hc : l.count "source_repo" ≤ 1) :
    "source_repo" ∉ l.erase "source_repo" := by
  intro hm
  have hpos : 0 < (l.erase "source_repo").count "source_repo" :=
    List.count_pos_iff.mpr hm
  rw [List.count_erase_self] at hpos
  omega

theorem notmem_erase_append (l : List String) (hb : ¬ l.contains "source_repo" = true) :
    "source_repo" ∉ (l ++ ["source_repo"]).erase "source_repo" := by
  intro hm
  have hnm : "source_repo" ∉ l := fun hmem => hb (List.elem_eq_true_of_mem hmem)
  have h0 : l.count "source_repo" = 0 := List.count_eq_zero.mpr hnm
  have hpos : 0 < ((l ++ ["source_repo"]).erase "source_repo").count "source_repo" :=
    List.count_pos_iff.mpr hm
  rw [List.count_erase_self, List.count_append, h0] at hpos
  simp at hpos

/-- Counterexample to C6: `sync_repos.py` works in a persistent clone at
/tmp/target_repo that is never deleted — after a fully successful sync
attempt the working copy still exists on disk; moreover, when the final
push fails on the success path, the run terminates with the source_repo
remote still configured in that persisted working copy. -/
theorem C6_counterexample_workdir_persists :
    (SyncRepos.main (wFreshC commitOne commitTwo commitMerge) cfgC).map
        (fun r => (r.workdirPersists, r.outcome))
      = some (true, SyncRepos.Outcome.prReady)
    ∧ (SyncRepos.main (wPushFailC commitOne commitTwo commitMerge) cfgC).map
        (fun r => (r.workdirPersists, r.remotes.contains "source_repo", r.outcome))
      = some (true, true, SyncRepos.Outcome.successPushFailed) :=
  ⟨by decide, by decide⟩

/-- C6 as amended: in `sync_repositories.py` the working copy is a
temporary directory removed on every exit path (the source remote
disappears with it); in `sync_repos.py` the working copy persists after
every outcome, and the source_repo remote is absent afterwards on every
exception-free path except the one where the final push of a clean merge
fails, which ends the run with the remote still configured. -/
theorem C6_amended_cleanup :
    (∀ (w : SyncRepositories.World) (cfg : SyncRepositories.Config),
      (SyncRepositories.main w cfg).workingCopyAbsent = true)
    ∧ (∀ (w : SyncRepos.World) (cfg : SyncRepos.Config) (run : SyncRepos.Run),
      w.initialRemotes.count "source_repo" ≤ 1 →
      SyncRepos.main w cfg = some run →
      run.workdirPersists = true
      ∧ (run.outcome ≠ SyncRepos.Outcome.successPushFailed →
          "source_repo" ∈ run.remotes → False)) := by
  constructor
  · intro w cfg
    cases hu : repoFullName cfg.target_repo_url with
    | none => simp [SyncRepositories.main, hu]
    | some rfn =>
      cases hs : SyncRepositories.setup_repo_sync w cfg rfn with
      | error e => simp [SyncRepositories.main, hu, hs]
      | ok p =>
        obtain ⟨b, msgs, pushes⟩ := p
        cases b <;> simp [SyncRepositories.main, hu, hs]
  · intro w cfg run hcount h
    obtain ⟨rpe, ir, tme, snc, me, ub, po, ls, crs, mc⟩ := w
    simp only [SyncRepos.main] at h
    repeat' split at h
    all_goals
      first
        | exact Option.noConfusion h
        | (injection h with h2; subst h2;
           refine ⟨rfl, fun hne hm => ?_⟩;
           first
             | exact absurd rfl hne
             | exact notmem_erase_of_count_le ir hcount hm
             | exact notmem_erase_append ir (by assumption) hm
             | (have hm2 : "source_repo" ∈ (["origin"] : List String).erase "source_repo" := hm;
                exact absurd hm2 (by decide)))

/-- Witness for C6 as amended: a concrete no-op run of `sync_repos.py`
keeps the working copy on disk but ends with the source_repo remote
removed. -/
theorem C6_amended_cleanup_witness :
    ∃ run : SyncRepos.Run, SyncRepos.main wNoopC cfgC = some run
      ∧ run.workdirPersists = true
      ∧ ("source_repo" ∈ run.remotes → False) := by
  refine ⟨{ store := [], pushes := [], remotes := ["origin"], workdirPersists := true,
            reconcileCall := none, prNumber := none, outcome := .noChanges },
    by decide, ?_, ?_⟩
  · exact (C6_amended_cleanup.2 wNoopC cfgC _ (by decide) (by decide)).1
  · intro hm
    exact (C6_amended_cleanup.2 wNoopC cfgC _ (by decide) (by decide)).2 (by decide) hm

theorem openFor_append (s t : List PullRequest) (hh bb : String) :
    openFor (s ++ t) hh bb = openFor s hh bb ++ openFor t hh bb := by
  unfold openFor
  exact List.filter_append _ _

theorem createA_openFor_le (store : List PullRequest) (rfn nb tb : String)
    (d : Bool) (msgs : String) (h : (openFor store nb tb).length ≤ 1) :
    (openFor (SyncRepositories.create_pull_request store rfn nb tb d msgs) nb tb).length ≤ 1 := by
  unfold SyncRepositories.create_pull_request
  by_cases hc : (openFor store nb tb).length > 0
  · simpa [hc] using h
  · simp only [hc, if_false]
    rw [openFor_append]
    have h1 := List.length_filter_le
      (fun pr : PullRequest => pr.isOpen && pr.head == nb && pr.base == tb)
      [{ number := freshNumber store, head := nb, base := tb,
         body := SyncRepositories.pr_body tb nb msgs, draft := d, isOpen := true }]
    simp only [List.length_append]
    have h0 : (openFor store nb tb).length = 0 := by omega
    rw [h0]
    simpa [openFor] using h1

/-- Counterexample to C7: in `sync_repos.py`, when the existence lookup
fails (HTTP 500) while an open pull request for the pair already exists,
the reconciler treats the failure as absence and creates a second pull
request: the store ends with two open pull requests for the same
(head, base) pair, violating the at-most-one invariant. -/
theorem C7_counterexample_duplicate_on_lookup_failure :
    (SyncRepos.create_pull_request urlTarget "aux-sync-main" "main" ["entry"] false
        [prExistingC] 500 201).map
      (fun out => ((openFor out.store "aux-sync-main" "main").length, out.attemptedCreate))
      = some (2, true) :=
  by decide

/-- C7 as amended: at most one open pull request per (head, base) pair
is maintained whenever the existence lookup succeeds — across any
sequence of reconciler calls in `sync_repositories.py`, and across any
single call of `sync_repos.py` whose lookup answers 200; a failed lookup
in `sync_repos.py` degrades to unconditional creation and can violate
the invariant (see the counterexample). -/
theorem C7_amended_lookup_before_create :
    (∀ (calls : List (Bool × String)) (store : List PullRequest) (rfn nb tb : String),
      (openFor store nb tb).length ≤ 1 →
      (openFor (reconcileSeqA rfn nb tb calls store) nb tb).length ≤ 1)
    ∧ (∀ (url aux tb : String) (cl : List String) (d : Bool)
        (store : List PullRequest) (cs : Nat) (out : SyncRepos.ReconcileOut),
      SyncRepos.create_pull_request url aux tb cl d store 200 cs = some out →
      (openFor store aux tb).length ≤ 1 →
      (openFor out.store aux tb).length ≤ 1) := by
  constructor
  · intro calls
    induction calls with
    | nil => intro store rfn nb tb h; exact h
    | cons c rest ih =>
      intro store rfn nb tb h
      obtain ⟨d, msgs⟩ := c
      exact ih _ rfn nb tb (createA_openFor_le store rfn nb tb d msgs h)
  · intro url aux tb cl d store cs out h hle
    unfold SyncRepos.create_pull_request at h
    cases hu : repoFullName url with
    | none =>
      rw [hu] at h
      exact Option.noConfusion h
    | some rfn =>
      rw [hu] at h
      unfold SyncRepos.pull_request_exists at h
      by_cases hc : (openFor store aux tb).length > 0
      · simp [hc] at h
        rw [← h]
        exact hle
      · simp only [hc] at h
        by_cases hcs : (cs == 201) = true
        · simp [hcs] at h
          rw [← h]
          simp only [openFor_append, List.length_append]
          have h1 := List.length_filter_le
            (fun pr : PullRequest => pr.isOpen && pr.head == aux && pr.base == tb)
            [{ number := freshNumber store, head := aux, base := tb,
               body := SyncRepos.pr_body aux tb cl, draft := d, isOpen := true }]
          have h0 : (openFor store aux tb).length = 0 := by omega
          rw [h0]
          simpa [openFor] using h1
        · simp [hcs] at h
          rw [← h]
          exact hle

/-- Witness for C7 as amended: two successive reconciliations on an
empty store leave at most one open pull request, and a single
`sync_repos.py` reconciliation with a healthy lookup preserves the
invariant. -/
theorem C7_amended_lookup_before_create_witness :
    (openFor (reconcileSeqA "lsfreitas/target-repo" "sync-branch" "main"
        [(false, "s1"), (false, "s2")] []) "sync-branch" "main").length ≤ 1
    ∧ (openFor (SyncRepos.ReconcileOut.mk
          [PullRequest.mk 1 "aux-sync-main" "main"
            (SyncRepos.pr_body "aux-sync-main" "main" ["x"]) false true]
          (some 1) true).store "aux-sync-main" "main").length ≤ 1 :=
  ⟨C7_amended_lookup_before_create.1 [(false, "s1"), (false, "s2")] []
      "lsfreitas/target-repo" "sync-branch" "main" (by decide),
    C7_amended_lookup_before_create.2 urlTarget "aux-sync-main" "main" ["x"] false [] 201 _
      (by decide) (by decide)⟩

/-- Counterexample to C8: in the claimed scenario (two new source
commits, clean whole-branch merge, fresh sync branch) run by
`sync_repositories.py`, the outcome is a non-draft pull request whose
body lists ZERO commit entries, not two: the summary is computed from
`target..sync-branch` BEFORE the merge, when the freshly created sync
branch has no commits beyond the target. -/
theorem C8_counterexample_zero_commit_lines :
    ((SyncRepositories.main (wFreshA commitOne commitTwo) cfgA).store.map
        (fun p => (p.draft, dashLineCount p.body))) = [(false, 0)]
    ∧ (SyncRepositories.main (wFreshA commitOne commitTwo) cfgA).outcome
        = SyncRepositories.Outcome.prReady
    ∧ (SyncRepositories.main (wFreshA commitOne commitTwo) cfgA).pushes = ["sync-branch"] :=
  ⟨by decide, by decide, by decide⟩

/-- C8 as amended: in the two-new-commits, clean-merge scenario both
drivers produce a non-draft pull request, but neither body lists exactly
2 commit entries — `sync_repositories.py` lists 0 (pre-merge summary of
a fresh sync branch) and `sync_repos.py` passes a 3-entry commit list
(the two commits plus the appended merge-commit line). -/
theorem C8_amended_scenario :
    ∀ c1 c2 cm : Commit,
      ((SyncRepositories.main (wFreshA c1 c2) cfgA).store.map
          (fun p => (p.draft, dashLineCount p.body))) = [(false, 0)]
      ∧ (SyncRepositories.main (wFreshA c1 c2) cfgA).outcome
          = SyncRepositories.Outcome.prReady
      ∧ ((SyncRepos.main (wFreshC c1 c2 cm) cfgC).map
          (fun r => (r.outcome, r.reconcileCall.map (fun rc => (rc.1, rc.2.length)))))
          = some (SyncRepos.Outcome.prReady, some (false, 3)) := by
  intro c1 c2 cm
  exact ⟨rfl, rfl, rfl⟩

/-- C10: in `sync_repos.py`, any non-200 response to the pull-request
lookup makes `pull_request_exists` return false exactly as when no pull
request exists, and the subsequent reconciliation then issues the
creation POST unconditionally — the lookup-before-create discipline
degrades to unconditional creation whenever the lookup errors. -/
theorem C10_lookup_failure_degrades :
    (∀ (st : Nat) (pulls : List PullRequest), st ≠ 200 →
      SyncRepos.pull_request_exists { status := st, pulls := pulls } = false)
    ∧ SyncRepos.pull_request_exists { status := 200, pulls := [] } = false
    ∧ (∀ (url aux tb : String) (cl : List String) (d : Bool)
        (store : List PullRequest) (ls cs : Nat) (out : SyncRepos.ReconcileOut),
      ls ≠ 200 →
      SyncRepos.create_pull_request url aux tb cl d store ls cs = some out →
      out.attemptedCreate = true) := by
  refine ⟨?_, by decide, ?_⟩
  · intro st pulls h
    simp [SyncRepos.pull_request_exists, h]
  · intro url aux tb cl d store ls cs out hls h
    unfold SyncRepos.create_pull_request at h
    cases hu : repoFullName url with
    | none =>
      rw [hu] at h
      exact Option.noConfusion h
    | some rfn =>
      simp only [hu] at h
      have hex : SyncRepos.pull_request_exists
          { status := ls, pulls := openFor store aux tb } = false := by
        simp [SyncRepos.pull_request_exists, hls]
      rw [hex] at h
      simp only [Bool.false_eq_true, if_false] at h
      by_cases hcs : (cs == 201) = true
      · simp [hcs] at h
        rw [← h]
      · simp [hcs] at h
        rw [← h]

/-- Witness for C10: a concrete 500-status lookup reports absence, and a
concrete reconciliation against a failing lookup still issues the
creation POST. -/
theorem C10_lookup_failure_degrades_witness :
    SyncRepos.pull_request_exists { status := 500, pulls := [prExistingC] } = false
    ∧ (SyncRepos.ReconcileOut.mk
        [prExistingC,
          PullRequest.mk 2 "aux-sync-main" "main"
            (SyncRepos.pr_body "aux-sync-main" "main" ["x"]) false true]
        (some 2) true).attemptedCreate = true :=
  ⟨C10_lookup_failure_degrades.1 500 [prExistingC] (by decide),
    C10_lookup_failure_degrades.2.2 urlTarget "aux-sync-main" "main" ["x"] false
      [prExistingC] 500 201 _ (by decide) (by decide)⟩
